import Mathlib

/-!
Verification of the media-indexing bot (`database.py`, `main.py`) against its
natural-language specification.  The Python source is shallowly embedded:
pure computations become Lean functions, the MongoDB media collection becomes
a `List MediaRecord`, the chat transport becomes explicit oracle parameters,
and Python exceptions become `Except` values.
-/

namespace AutoFilter

/-! ## Python primitives -/

/-- A Python `\w` word character: alphanumeric or underscore
(ASCII model of the regex class used in `re.findall(r'\w+', ...)`). -/
def isWordChar (c : Char) : Bool := c.isAlphanum || c == '_'

/-- Python `str.lower()`, modelled as character-wise lowering. -/
def pyLower (s : String) : String := String.mk (s.data.map Char.toLower)

/-- Helper for `re.findall(r'\w+', s)`: scans the character list, `acc` holds
the current (reversed) run of word characters. -/
def wordRunsAux (acc : List Char) : List Char → List (List Char)
  | [] => if acc.isEmpty then [] else [acc.reverse]
  | c :: cs =>
    if isWordChar c then wordRunsAux (c :: acc) cs
    else if acc.isEmpty then wordRunsAux [] cs
    else acc.reverse :: wordRunsAux [] cs

/-- Python `re.findall(r'\w+', s)`: the ordered maximal runs of word
characters of `s`. -/
def reFindallWords (s : String) : List String :=
  (wordRunsAux [] s.data).map String.mk

/-- Python `s.strip()` (whitespace removed at both ends). -/
def pyStrip (s : String) : String :=
  String.mk
    (((s.data.dropWhile Char.isWhitespace).reverse.dropWhile Char.isWhitespace).reverse)

/-- Python `s.isdigit()`: non-empty and all digits (ASCII model). -/
def pyIsDigit (s : String) : Bool := !s.data.isEmpty && s.data.all Char.isDigit

/-- Python `s.isalnum()`: non-empty and all alphanumeric (ASCII model). -/
def pyIsAlnum (s : String) : Bool := !s.data.isEmpty && s.data.all Char.isAlphanum

/-- Python `s.startswith(pre)`. -/
def pyStartsWith (s pre : String) : Bool := pre.data.isPrefixOf s.data

/-- Helper for Python `s.replace(old, new)`: replace occurrences left to
right, non-overlapping; `fuel` bounds recursion (any value ≥ length works). -/
def pyReplaceAux (old new : List Char) : Nat → List Char → List Char
  | _, [] => []
  | 0, l => l
  | Nat.succ fuel, c :: cs =>
    if old.isPrefixOf (c :: cs) && !old.isEmpty then
      new ++ pyReplaceAux old new fuel (List.drop (old.length - 1) cs)
    else c :: pyReplaceAux old new fuel cs

/-- Python `s.replace(old, new)` for non-empty `old`. -/
def pyReplace (s old new : String) : String :=
  String.mk (pyReplaceAux old.data new.data s.data.length s.data)

/-- Python `x or ""` for an optional string (None and `""` are falsy). -/
def orEmpty : Option String → String
  | none => ""
  | some s => s

/-! ## Token normalization (`database.py`) -/

/-- Token normalization on the indexing side, `database.py` line 63:
`re.findall(r'\w+', search_text.lower())`. -/
def indexNormalize (s : String) : List String := reFindallWords (pyLower s)

/-- Query cleaning on the search side, `database.py` line 85:
`re.findall(r'\w+', query.lower())`. -/
def queryClean (s : String) : List String := reFindallWords (pyLower s)

/-- The `search_tags` token list `add_media` derives from a record's
`file_name` and `caption` (`search_text = (file_name or "") + " " + (caption or "")`). -/
def searchTagsTokens (file_name caption : Option String) : List String :=
  indexNormalize (orEmpty file_name ++ " " ++ orEmpty caption)

/-! ## Media store (`database.py`) -/

/-- One document of the `media` collection (`add_media`'s `media_data`).
`indexed_at` is the upsert timestamp, passed explicitly. -/
structure MediaRecord where
  channel_id : Int
  message_id : Nat
  file_id : String
  file_name : Option String
  caption : Option String
  file_type : String
  file_size : Nat
  search_tags : String
  indexed_at : Nat
deriving Repr, DecidableEq

/-- The filter `{'channel_id': channel_id, 'message_id': message_id}`. -/
def mediaKeyMatch (channel_id : Int) (message_id : Nat) (r : MediaRecord) : Bool :=
  r.channel_id == channel_id && r.message_id == message_id

/-- Mongo `update_one(filter, {'$set': doc}, upsert=True)` on a list-modelled
collection: replace the first matching document (the `$set` covers every
field of the document), or append `doc` when none matches. -/
def updateOneUpsert (p : MediaRecord → Bool) (doc : MediaRecord) :
    List MediaRecord → List MediaRecord
  | [] => [doc]
  | r :: rs => if p r then doc :: rs else r :: updateOneUpsert p doc rs

/-- The `media_data` document built in `add_media` (`database.py` 65-75). -/
def mkMediaData (channel_id : Int) (message_id : Nat) (file_id : String)
    (file_name caption : Option String) (file_type : String)
    (file_size : Nat) (now : Nat) : MediaRecord :=
  { channel_id := channel_id, message_id := message_id, file_id := file_id,
    file_name := file_name, caption := caption, file_type := file_type,
    file_size := file_size,
    search_tags := String.intercalate " " (searchTagsTokens file_name caption),
    indexed_at := now }

/-- Embedding of `Database.add_media` (`database.py` 60-81). -/
def add_media (store : List MediaRecord) (channel_id : Int) (message_id : Nat)
    (file_id : String) (file_name caption : Option String)
    (file_type : String) (file_size : Nat) (now : Nat) : List MediaRecord :=
  updateOneUpsert (mediaKeyMatch channel_id message_id)
    (mkMediaData channel_id message_id file_id file_name caption file_type file_size now)
    store

/-- Number of records in the store with a given `(channel_id, message_id)` key. -/
def countKey (store : List MediaRecord) (channel_id : Int) (message_id : Nat) : Nat :=
  store.countP (mediaKeyMatch channel_id message_id)

/-- The case/punctuation shape of one character: its lowercased form when
that form is a word character, `none` otherwise. -/
def shapeChar (c : Char) : Option Char :=
  if isWordChar c.toLower then some c.toLower else none

/-- The case/punctuation shape of a string.  Two strings with the same shape
are case/punctuation variants of each other. -/
def normShape (s : String) : List (Option Char) := s.data.map shapeChar

/-- Embedding of `Database.search_media` (`database.py` 83-105).  The Mongo `$text` query
is an external oracle `storeSearch`; the Bool records whether the store was
queried at all. -/
def search_media (storeSearch : String → Nat → List MediaRecord)
    (query : String) (max_results : Nat) : List MediaRecord × Bool :=
  let cleaned_query := String.intercalate " " (queryClean query)
  if cleaned_query = "" then ([], false)
  else (storeSearch cleaned_query max_results, true)

/-- Python exceptions surfaced by the embedded code. -/
inductive PyError where
  | attributeError
  | typeError
deriving Repr, DecidableEq

/-- A media attachment as delivered by the transport (`msg.video`,
`msg.document` or `msg.audio`).  For `mime_type`, `none` models an absent
attribute (so `getattr(media, 'mime_type', '')` yields `""`) while
`some none` models an attribute present with value `None`. -/
structure MediaObj where
  file_id : String
  file_name : Option String
  mime_type : Option (Option String)
  file_size : Nat
deriving Repr, DecidableEq

/-- A message of the channel history. `media_kind` is `msg.media.value` when
the message carries any media (`"video"`, `"photo"`, ...), else `none`. -/
structure ChatMessage where
  id : Nat
  video : Option MediaObj
  document : Option MediaObj
  audio : Option MediaObj
  photo : Bool
  text : Option String
  caption : Option String
  media_kind : Option String
deriving Repr, DecidableEq

/-- The filter `media = msg.video or msg.document or msg.audio` (`main.py` 604):
Python `or` returns the first truthy operand. -/
def getMedia (m : ChatMessage) : Option MediaObj :=
  (m.video.orElse fun _ => m.document).orElse fun _ => m.audio

/-- A message is eligible iff the media filter leaves something. -/
def eligibleMsg (m : ChatMessage) : Bool := (getMedia m).isSome

/-- Extension inference `getattr(media, 'mime_type', '').split('/')[-1] or 'file'` (`main.py` 618).
When the attribute holds `None`, `None.split` raises `AttributeError`. -/
def inferExt (mime : Option (Option String)) : Except PyError String :=
  match mime with
  | none => Except.ok "file"
  | some none => Except.error PyError.attributeError
  | some (some s) =>
    let e := (s.splitOn "/").getLastD ""
    Except.ok (if e = "" then "file" else e)

/-- The fields handed to `db.add_media` for one eligible message. -/
structure ExtractedInfo where
  file_id : String
  file_name : String
  caption : Option String
  file_type : String
  file_size : Nat
deriving Repr, DecidableEq

/-- Detail extraction for an eligible message (`main.py` 609-619 and the
`caption.html if caption else None` argument at 638).  A missing or empty
`file_name` triggers synthesis `f"{media_type}_{msg.id}.{ext}"`. -/
def extractDetails (media : MediaObj) (m : ChatMessage) : Except PyError ExtractedInfo :=
  let media_type := m.media_kind.getD "unknown"
  let cap : Option String :=
    match m.caption with
    | some s => if s = "" then none else some s
    | none => none
  let synthesized : Except PyError String :=
    match inferExt media.mime_type with
    | Except.error e => Except.error e
    | Except.ok ext => Except.ok (media_type ++ "_" ++ toString m.id ++ "." ++ ext)
  let nameRes : Except PyError String :=
    match media.file_name with
    | some s => if s = "" then synthesized else Except.ok s
    | none => synthesized
  match nameRes with
  | Except.error e => Except.error e
  | Except.ok name =>
    Except.ok { file_id := media.file_id, file_name := name, caption := cap,
                file_type := media_type, file_size := media.file_size }

/-- Whether extraction succeeds for a message (vacuously for an ineligible one). -/
def extractOkB (m : ChatMessage) : Bool :=
  match getMedia m with
  | none => true
  | some media =>
    match extractDetails media m with
    | Except.ok _ => true
    | Except.error _ => false

/-- The counters kept by `index_channel` (`main.py` 579-582). -/
structure ScanCounts where
  processed : Nat
  skipped : Nat
  failed : Nat
  scanned : Nat
deriving Repr, DecidableEq

/-- One step of the transport's history stream: a delivered message, or a
`FloodWait` raised while iterating `get_chat_history`. -/
inductive HistEvent where
  | msg (m : ChatMessage)
  | flood (waitSeconds : Nat)
deriving Repr, DecidableEq

def HistEvent.isMsg : HistEvent → Bool
  | .msg _ => true
  | .flood _ => false

/-- How the history loop ended: reaching the final summary (`main.py`
694-706), or aborting through the generic handler (686-691). -/
inductive ScanTermination where
  | done
  | aborted (e : PyError)
deriving Repr, DecidableEq

/-- One successful `db.add_media` call issued by the scanner. -/
structure MediaWrite where
  channel_id : Int
  message_id : Nat
  info : ExtractedInfo
deriving Repr, DecidableEq

structure ScanResult where
  counts : ScanCounts
  writes : List MediaWrite
  sleeps : List Nat
  termination : ScanTermination
deriving Repr, DecidableEq

/-- The history loop of `index_channel` (`main.py` 600-706).  `dbFail` says
whether `db.add_media` raises for a given message (the inner handler at
644-649 then bumps `failed_count` and continues).  A `flood` event models
`FloodWait` raised by history iteration: the handler at 673-680 sleeps
`fw.value + 5` seconds and then falls through to the final summary without
resuming iteration, so later events are never consumed.  An extraction error
propagates to the generic handler and aborts the scan. -/
def scanLoop (dbFail : ChatMessage → Bool) (channel_id : Int) :
    List HistEvent → ScanCounts → List MediaWrite → List Nat → ScanResult
  | [], c, w, s => ⟨c, w, s, ScanTermination.done⟩
  | .flood fw :: _, c, w, s => ⟨c, w, s ++ [fw + 5], ScanTermination.done⟩
  | .msg m :: rest, c, w, s =>
    let c' : ScanCounts := { c with scanned := c.scanned + 1 }
    match getMedia m with
    | none => scanLoop dbFail channel_id rest { c' with skipped := c'.skipped + 1 } w s
    | some media =>
      match extractDetails media m with
      | Except.error e => ⟨c', w, s, ScanTermination.aborted e⟩
      | Except.ok info =>
        if dbFail m then
          scanLoop dbFail channel_id rest { c' with failed := c'.failed + 1 } w s
        else
          scanLoop dbFail channel_id rest { c' with processed := c'.processed + 1 }
            (w ++ [⟨channel_id, m.id, info⟩]) s

/-- The write `scanLoop` issues for one message, if any. -/
def msgWrite (dbFail : ChatMessage → Bool) (channel_id : Int) (m : ChatMessage) :
    Option MediaWrite :=
  match getMedia m with
  | none => none
  | some media =>
    match extractDetails media m with
    | Except.error _ => none
    | Except.ok info => if dbFail m then none else some ⟨channel_id, m.id, info⟩

/-- Chat info returned by `client.get_chat` during resolution. -/
structure ChatInfo where
  id : Int
  title : Option String
  username : Option String
deriving Repr, DecidableEq

/-- The status text edited on resolution failure (`main.py` 593). -/
def resolutionErrorText (channel_target cause : String) : String :=
  "❌ Error: Could not access channel `" ++ channel_target
    ++ "`. Ensure the bot is an admin or the username/ID is correct.\nDetails: `"
    ++ cause ++ "`"

/-- Outcome of one `index_channel` call. -/
structure IndexResult where
  resolutionError : Option String
  scan : Option ScanResult
deriving Repr, DecidableEq

/-- Embedding of `index_channel` (`main.py` 576-706): resolve the channel, then run the
history loop.  On resolution failure the handler at 592-595 reports and
returns before any store write. -/
def index_channel (resolveChat : Except String ChatInfo) (channel_target : String)
    (history : List HistEvent) (dbFail : ChatMessage → Bool) : IndexResult :=
  match resolveChat with
  | Except.error cause => ⟨some (resolutionErrorText channel_target cause), none⟩
  | Except.ok chat => ⟨none, some (scanLoop dbFail chat.id history ⟨0, 0, 0, 0⟩ [] [])⟩

/-- All store writes issued during one `index_channel` call. -/
def IndexResult.allWrites : IndexResult → List MediaWrite
  | ⟨_, none⟩ => []
  | ⟨_, some r⟩ => r.writes

/-- A message that will be counted as processed: eligible and its write succeeds. -/
def procP (dbFail : ChatMessage → Bool) (m : ChatMessage) : Bool :=
  eligibleMsg m && !dbFail m

/-- A message that will be counted as failed: eligible but its write raises. -/
def failP (dbFail : ChatMessage → Bool) (m : ChatMessage) : Bool :=
  eligibleMsg m && dbFail m

/-- A message that will be counted as skipped: no recognized media. -/
def skipP (m : ChatMessage) : Bool := !eligibleMsg m

/-- A scan of a channel history starting from zeroed counters. -/
def runScan (dbFail : ChatMessage → Bool) (cid : Int) (history : List HistEvent) :
    ScanResult :=
  scanLoop dbFail cid history ⟨0, 0, 0, 0⟩ [] []

/-- A text-only message (`main.py` 604-607 skips it). -/
def textMsg : ChatMessage :=
  ⟨1, none, none, none, false, some "hello there", none, none⟩

/-- A video message with full metadata. -/
def videoMsg : ChatMessage :=
  ⟨2, some ⟨"vid-file-id", some "movie.mkv", some (some "video/mp4"), 100⟩,
   none, none, false, none, some "Great movie", some "video"⟩

/-- A photo message: `msg.video or msg.document or msg.audio` ignores photos. -/
def photoMsg : ChatMessage :=
  ⟨3, none, none, none, true, none, some "a photo", some "photo"⟩

/-- A document message with full metadata. -/
def docMsg : ChatMessage :=
  ⟨4, none, some ⟨"doc-file-id", some "paper.pdf", some (some "application/pdf"), 50⟩,
   none, false, none, none, some "document"⟩

/-- A video message with index `i`, used for history traces. -/
def vMsg (i : Nat) : ChatMessage :=
  ⟨i, some ⟨"v" ++ toString i, some ("clip" ++ toString i ++ ".mp4"),
    some (some "video/mp4"), 10⟩, none, none, false, none, none, some "video"⟩

/-- The string `sub` occurs verbatim inside `s`. -/
def containsSub (s sub : String) : Prop := ∃ pre post, s = pre ++ (sub ++ post)

/-- A channel identity as stored in a record: numeric id or string handle. -/
inductive ChanIdent where
  | int (n : Int)
  | str (s : String)
deriving Repr, DecidableEq

/-- The part of `get_chat`'s result used by the link builder. -/
structure ChatHandle where
  username : Option String
deriving Repr, DecidableEq

/-- Python f-string rendering of `chat.username` (None prints as "None"). -/
def pyFStr : Option String → String
  | none => "None"
  | some s => s

/-- Embedding of `get_media_link` (`main.py` 73-101).  `getChat` is the transport oracle;
`abs()` applied to a string raises `TypeError`. -/
def get_media_link (getChat : ChanIdent → Except String ChatHandle)
    (channel_id : ChanIdent) (message_id : Nat) : Except PyError String :=
  let link := "https://t.me/"
  match channel_id with
  | ChanIdent.int n =>
    if pyStartsWith (toString n) "-100" then
      Except.ok (link ++ "c/" ++ pyReplace (toString n) "-100" "" ++ "/"
        ++ toString message_id)
    else
      match getChat channel_id with
      | Except.ok chat =>
        match chat.username with
        | some u =>
          if u = "" then
            Except.ok (link ++ "c/" ++ toString n.natAbs ++ "/" ++ toString message_id)
          else Except.ok (link ++ u ++ "/" ++ toString message_id)
        | none =>
          Except.ok (link ++ "c/" ++ toString n.natAbs ++ "/" ++ toString message_id)
      | Except.error _ =>
        Except.ok (link ++ "c/" ++ toString n.natAbs ++ "/" ++ toString message_id)
  | ChanIdent.str s =>
    if pyStartsWith s "@" then
      match getChat channel_id with
      | Except.ok chat =>
        Except.ok (link ++ pyFStr chat.username ++ "/" ++ toString message_id)
      | Except.error _ =>
        Except.ok (link ++ pyReplace s "@" "" ++ "/" ++ toString message_id)
    else
      match getChat channel_id with
      | Except.ok chat =>
        match chat.username with
        | some u =>
          if u = "" then Except.error PyError.typeError
          else Except.ok (link ++ u ++ "/" ++ toString message_id)
        | none => Except.error PyError.typeError
      | Except.error _ => Except.error PyError.typeError

/-- What the query-processing stage of the handler did: whether
`db.search_media` was called, and whether any reply was sent. -/
structure GroupHandlerTrace where
  searchCalled : Bool
  replied : Bool
deriving Repr, DecidableEq

/-- The query-processing stage of `group_filter_handler` (`main.py` 832-905),
after the ban and force-subscribe gates.  The filter at 833-836 returns
silently for short, purely numeric, or single non-alphanumeric queries;
otherwise the store is searched and a reply is sent (for an empty result set
only when the request-movie button is configured). -/
def group_filter_handler (storeSearch : String → Nat → List MediaRecord)
    (maxResults : Nat) (requestButtonConfigured : Bool) (text : String) :
    GroupHandlerTrace :=
  let query := pyStrip text
  if query.length < 3 || pyIsDigit query
      || (query.length == 1 && !pyIsAlnum query) then
    ⟨false, false⟩
  else
    let results := (search_media storeSearch query maxResults).1
    if results.isEmpty then ⟨true, requestButtonConfigured⟩
    else ⟨true, true⟩

theorem wordRunsAux_shape (l₁ : List Char) : ∀ (l₂ : List Char) (acc : List Char),
    l₁.map shapeChar = l₂.map shapeChar →
    wordRunsAux acc (l₁.map Char.toLower) = wordRunsAux acc (l₂.map Char.toLower) := by
  induction l₁ with
  | nil =>
    intro l₂ acc h
    cases l₂ with
    | nil => rfl
    | cons c cs => simp at h
  | cons c cs ih =>
    intro l₂ acc h
    cases l₂ with
    | nil => simp at h
    | cons d ds =>
      simp only [List.map_cons, List.cons.injEq] at h
      obtain ⟨hcd, htl⟩ := h
      simp only [List.map_cons, wordRunsAux]
      by_cases hw : isWordChar c.toLower
      · have hd : isWordChar d.toLower = true ∧ c.toLower = d.toLower := by
          unfold shapeChar at hcd
          rw [if_pos hw] at hcd
          by_cases hw' : isWordChar d.toLower
          · rw [if_pos hw'] at hcd
            exact ⟨hw', Option.some.inj hcd⟩
          · rw [if_neg hw'] at hcd
            exact absurd hcd (by simp)
        rw [hw, hd.1, hd.2]
        exact ih ds (d.toLower :: acc) htl
      · have hd : isWordChar d.toLower = false := by
          unfold shapeChar at hcd
          rw [if_neg hw] at hcd
          by_cases hw' : isWordChar d.toLower
          · rw [if_pos hw'] at hcd
            exact absurd hcd.symm (by simp)
          · exact Bool.eq_false_iff.mpr hw'
        simp only [Bool.not_eq_true] at hw
        simp only [hw, hd, Bool.false_eq_true, if_false]
        by_cases ha : acc.isEmpty
        · simp only [ha, if_true]
          exact ih ds [] htl
        · simp only [ha, Bool.false_eq_true, if_false]
          rw [ih ds [] htl]

/-- C1: The token normalization applied when indexing a record and the query
cleaning applied in `search_media` compute the same function (lowercase, then
extract ordered maximal runs of word characters); empty or absent input yields
an empty token sequence; and normalizing any string on the index side and any
case/punctuation variant of it (same `normShape`) on the query side yields the
same tokens. -/
theorem index_query_normalization_same :
    (∀ s, indexNormalize s = queryClean s)
    ∧ queryClean "" = []
    ∧ searchTagsTokens none none = []
    ∧ (∀ s t, normShape s = normShape t → queryClean s = indexNormalize t) := by
  refine ⟨fun s => rfl, rfl, by decide, fun s t h => ?_⟩
  show (wordRunsAux [] (s.data.map Char.toLower)).map String.mk
      = (wordRunsAux [] (t.data.map Char.toLower)).map String.mk
  rw [wordRunsAux_shape s.data t.data [] h]

theorem index_query_normalization_same_witness :
    normShape "MATRIX.1999" = normShape "matrix 1999"
    ∧ queryClean "MATRIX.1999" = indexNormalize "matrix 1999" :=
  ⟨by decide,
   index_query_normalization_same.2.2.2 "MATRIX.1999" "matrix 1999" (by decide)⟩

theorem updateOneUpsert_unique (p : MediaRecord → Bool) (d : MediaRecord)
    (hd : p d = true) :
    ∀ st : List MediaRecord, st.countP p ≤ 1 →
      (updateOneUpsert p d st).countP p = 1
      ∧ (updateOneUpsert p d st).find? p = some d := by
  intro st
  induction st with
  | nil =>
    intro _
    refine ⟨?_, ?_⟩
    · simp [updateOneUpsert, hd]
    · simp [updateOneUpsert, List.find?, hd]
  | cons r rs ih =>
    intro h
    by_cases hr : p r = true
    · have hz : rs.countP p = 0 := by
        rw [List.countP_cons] at h
        simp only [hr, if_true] at h
        omega
      refine ⟨?_, ?_⟩
      · simp [updateOneUpsert, hr, List.countP_cons, hd, hz]
      · simp [updateOneUpsert, hr, List.find?, hd]
    · have h' : rs.countP p ≤ 1 := by
        rw [List.countP_cons] at h
        simp only [hr, if_false] at h
        omega
      obtain ⟨ihc, ihf⟩ := ih h'
      refine ⟨?_, ?_⟩
      · simp [updateOneUpsert, hr, List.countP_cons, ihc]
      · simp [updateOneUpsert, hr, List.find?, ihf]

/-- C2: calling `add_media` twice with the same `(channel_id, message_id)` key
and possibly different field values leaves exactly one record for that key
(given the unique-index invariant: at most one record for the key beforehand),
and that record carries the fields of the latest call, including `file_size`.
No duplicate for the key is ever created. -/
theorem add_media_upsert_latest (store : List MediaRecord) (cid : Int) (mid : Nat)
    (h : countKey store cid mid ≤ 1)
    (fid₁ : String) (fn₁ cap₁ : Option String) (ft₁ : String) (fs₁ t₁ : Nat)
    (fid₂ : String) (fn₂ cap₂ : Option String) (ft₂ : String) (fs₂ t₂ : Nat) :
    countKey (add_media (add_media store cid mid fid₁ fn₁ cap₁ ft₁ fs₁ t₁)
        cid mid fid₂ fn₂ cap₂ ft₂ fs₂ t₂) cid mid = 1
    ∧ (add_media (add_media store cid mid fid₁ fn₁ cap₁ ft₁ fs₁ t₁)
        cid mid fid₂ fn₂ cap₂ ft₂ fs₂ t₂).find? (mediaKeyMatch cid mid)
      = some (mkMediaData cid mid fid₂ fn₂ cap₂ ft₂ fs₂ t₂) := by
  have hd₁ : mediaKeyMatch cid mid (mkMediaData cid mid fid₁ fn₁ cap₁ ft₁ fs₁ t₁) = true := by
    simp [mediaKeyMatch, mkMediaData]
  have hd₂ : mediaKeyMatch cid mid (mkMediaData cid mid fid₂ fn₂ cap₂ ft₂ fs₂ t₂) = true := by
    simp [mediaKeyMatch, mkMediaData]
  have h₁ := updateOneUpsert_unique (mediaKeyMatch cid mid)
    (mkMediaData cid mid fid₁ fn₁ cap₁ ft₁ fs₁ t₁) hd₁ store h
  have h₂ := updateOneUpsert_unique (mediaKeyMatch cid mid)
    (mkMediaData cid mid fid₂ fn₂ cap₂ ft₂ fs₂ t₂) hd₂
    (updateOneUpsert (mediaKeyMatch cid mid)
      (mkMediaData cid mid fid₁ fn₁ cap₁ ft₁ fs₁ t₁) store)
    (le_of_eq h₁.1)
  exact ⟨h₂.1, h₂.2⟩

theorem add_media_upsert_latest_witness :
    countKey (add_media (add_media [] 7 1 "a" (some "x.mkv") none "video" 10 0)
        7 1 "b" (some "y.mkv") none "video" 20 1) 7 1 = 1
    ∧ (add_media (add_media [] 7 1 "a" (some "x.mkv") none "video" 10 0)
        7 1 "b" (some "y.mkv") none "video" 20 1).find? (mediaKeyMatch 7 1)
      = some (mkMediaData 7 1 "b" (some "y.mkv") none "video" 20 1) :=
  add_media_upsert_latest [] 7 1 (by decide)
    "a" (some "x.mkv") none "video" 10 0 "b" (some "y.mkv") none "video" 20 1

/-- C3: a raw query whose normalized token sequence is empty makes
`search_media` return an empty list immediately, with no store query issued
and no error. -/
theorem search_media_empty_query_short_circuit
    (storeSearch : String → Nat → List MediaRecord) (query : String)
    (max_results : Nat) (h : queryClean query = []) :
    search_media storeSearch query max_results = ([], false) := by
  unfold search_media
  rw [h]
  rfl

theorem search_media_empty_query_short_circuit_witness :
    search_media (fun _ _ => []) "" 5 = ([], false)
    ∧ search_media (fun _ _ => [mkMediaData 1 1 "f" none none "video" 0 0]) "   " 5
      = ([], false) :=
  ⟨search_media_empty_query_short_circuit _ "" 5 (by decide),
   search_media_empty_query_short_circuit _ "   " 5 (by decide)⟩

/-! ## Channel scanner (`main.py`, `index_channel`) -/

/-- Master accounting equation: a block of messages whose extraction succeeds
is consumed entirely, bumping each counter by the number of messages in the
corresponding class and issuing exactly the per-message writes, before the
loop continues with the remaining events. -/
theorem scanLoop_append_msgs (dbFail : ChatMessage → Bool) (cid : Int) :
    ∀ (msgs : List ChatMessage) (tail : List HistEvent) (c : ScanCounts)
      (w : List MediaWrite) (s : List Nat),
      (∀ m ∈ msgs, extractOkB m = true) →
      scanLoop dbFail cid (msgs.map HistEvent.msg ++ tail) c w s
        = scanLoop dbFail cid tail
            { processed := c.processed + msgs.countP (procP dbFail),
              skipped := c.skipped + msgs.countP skipP,
              failed := c.failed + msgs.countP (failP dbFail),
              scanned := c.scanned + msgs.length }
            (w ++ msgs.filterMap (msgWrite dbFail cid)) s := by
  intro msgs
  induction msgs with
  | nil =>
    intro tail c w s _
    simp only [List.map_nil, List.nil_append, List.countP_nil, Nat.add_zero,
      List.length_nil, List.filterMap_nil, List.append_nil]
  | cons m ms ih =>
    intro tail c w s hok
    have hm : extractOkB m = true := hok m (List.mem_cons_self m ms)
    have hms : ∀ x ∈ ms, extractOkB x = true :=
      fun x hx => hok x (List.mem_cons_of_mem m hx)
    cases hmed : getMedia m with
    | none =>
      have helig : eligibleMsg m = false := by simp [eligibleMsg, hmed]
      simp only [List.map_cons, List.cons_append, scanLoop, hmed, List.append_eq]
      rw [ih tail _ w s hms]
      rw [show (m :: ms).countP (procP dbFail) = ms.countP (procP dbFail) by
            simp [List.countP_cons, procP, helig],
          show c.skipped + (m :: ms).countP skipP = c.skipped + 1 + ms.countP skipP by
            simp [List.countP_cons, skipP, helig]; omega,
          show (m :: ms).countP (failP dbFail) = ms.countP (failP dbFail) by
            simp [List.countP_cons, failP, helig],
          show c.scanned + (m :: ms).length = c.scanned + 1 + ms.length by
            simp [List.length_cons]; omega,
          show (m :: ms).filterMap (msgWrite dbFail cid)
              = ms.filterMap (msgWrite dbFail cid) by
            simp [List.filterMap_cons, msgWrite, hmed]]
    | some media =>
      have helig : eligibleMsg m = true := by simp [eligibleMsg, hmed]
      cases hext : extractDetails media m with
      | error e =>
        exfalso
        simp [extractOkB, hmed, hext] at hm
      | ok info =>
        by_cases hf : dbFail m = true
        · simp only [List.map_cons, List.cons_append, scanLoop, hmed, hext, hf,
            if_true, List.append_eq]
          rw [ih tail _ w s hms]
          rw [show (m :: ms).countP (procP dbFail) = ms.countP (procP dbFail) by
                simp [List.countP_cons, procP, helig, hf],
              show (m :: ms).countP skipP = ms.countP skipP by
                simp [List.countP_cons, skipP, helig],
              show c.failed + (m :: ms).countP (failP dbFail)
                  = c.failed + 1 + ms.countP (failP dbFail) by
                simp [List.countP_cons, failP, helig, hf]; omega,
              show c.scanned + (m :: ms).length = c.scanned + 1 + ms.length by
                simp [List.length_cons]; omega,
              show (m :: ms).filterMap (msgWrite dbFail cid)
                  = ms.filterMap (msgWrite dbFail cid) by
                simp [List.filterMap_cons, msgWrite, hmed, hext, hf]]
        · simp only [List.map_cons, List.cons_append, scanLoop, hmed, hext,
            List.append_eq]
          rw [if_neg hf]
          rw [ih tail _ _ s hms]
          rw [show c.processed + (m :: ms).countP (procP dbFail)
                  = c.processed + 1 + ms.countP (procP dbFail) by
                simp [List.countP_cons, procP, helig, hf]; omega,
              show (m :: ms).countP skipP = ms.countP skipP by
                simp [List.countP_cons, skipP, helig],
              show (m :: ms).countP (failP dbFail) = ms.countP (failP dbFail) by
                simp [List.countP_cons, failP, helig, hf],
              show c.scanned + (m :: ms).length = c.scanned + 1 + ms.length by
                simp [List.length_cons]; omega,
              show w ++ (m :: ms).filterMap (msgWrite dbFail cid)
                  = (w ++ [⟨cid, m.id, info⟩]) ++ ms.filterMap (msgWrite dbFail cid) by
                simp [List.filterMap_cons, msgWrite, hmed, hext, hf]]

theorem countP_proc_skip_fail (dbFail : ChatMessage → Bool) (msgs : List ChatMessage) :
    msgs.countP (procP dbFail) + msgs.countP skipP + msgs.countP (failP dbFail)
      = msgs.length := by
  induction msgs with
  | nil => simp
  | cons m ms ih =>
    simp only [List.countP_cons, List.length_cons]
    by_cases he : eligibleMsg m = true
    · by_cases hf : dbFail m = true
      · simp [procP, skipP, failP, he, hf]
        omega
      · simp [procP, skipP, failP, he, hf]
        omega
    · simp [procP, skipP, failP, he]
      omega

/-- C4: a message is classified eligible iff it carries a video, document or
audio attachment; photo and text-only messages are counted as skipped, not
failed.  Scanning `[text, video, photo, document]` with no store errors yields
`processed = 2`, `skipped = 2`, `failed = 0`. -/
theorem scan_classification :
    (∀ m : ChatMessage,
      eligibleMsg m = (m.video.isSome || m.document.isSome || m.audio.isSome))
    ∧ (runScan (fun _ => false) 99
        [HistEvent.msg textMsg, HistEvent.msg videoMsg,
         HistEvent.msg photoMsg, HistEvent.msg docMsg]).counts
      = ⟨2, 2, 0, 4⟩
    ∧ (runScan (fun _ => false) 99
        [HistEvent.msg textMsg, HistEvent.msg videoMsg,
         HistEvent.msg photoMsg, HistEvent.msg docMsg]).termination
      = ScanTermination.done := by
  refine ⟨fun m => ?_, by decide, by decide⟩
  cases hv : m.video <;> cases hd : m.document <;> cases ha : m.audio <;>
    simp [eligibleMsg, getMedia, hv, hd, ha, Option.orElse]

/-- C5 as stated is false: with a flood-control signal raised on the third
message and the transport succeeding afterwards, the scan sleeps and reaches
the final summary, but the messages after the signal are never scanned — only
2 of the 4 history messages are reflected in the counts. -/
theorem scan_flood_drops_remaining_messages :
    (([HistEvent.msg (vMsg 1), HistEvent.msg (vMsg 2), HistEvent.flood 10,
       HistEvent.msg (vMsg 3), HistEvent.msg (vMsg 4)]).countP HistEvent.isMsg = 4)
    ∧ (runScan (fun _ => false) 99
        [HistEvent.msg (vMsg 1), HistEvent.msg (vMsg 2), HistEvent.flood 10,
         HistEvent.msg (vMsg 3), HistEvent.msg (vMsg 4)]).termination
      = ScanTermination.done
    ∧ (runScan (fun _ => false) 99
        [HistEvent.msg (vMsg 1), HistEvent.msg (vMsg 2), HistEvent.flood 10,
         HistEvent.msg (vMsg 3), HistEvent.msg (vMsg 4)]).sleeps = [15]
    ∧ ((runScan (fun _ => false) 99
        [HistEvent.msg (vMsg 1), HistEvent.msg (vMsg 2), HistEvent.flood 10,
         HistEvent.msg (vMsg 3), HistEvent.msg (vMsg 4)]).counts.processed
       + (runScan (fun _ => false) 99
        [HistEvent.msg (vMsg 1), HistEvent.msg (vMsg 2), HistEvent.flood 10,
         HistEvent.msg (vMsg 3), HistEvent.msg (vMsg 4)]).counts.skipped
       + (runScan (fun _ => false) 99
        [HistEvent.msg (vMsg 1), HistEvent.msg (vMsg 2), HistEvent.flood 10,
         HistEvent.msg (vMsg 3), HistEvent.msg (vMsg 4)]).counts.failed = 2) := by
  decide

/-- C5 (amended): on a flood-control signal the Scanner suspends for the
signaled duration plus a 5-second safety margin and then reaches the final
summary; every message delivered before the signal is reflected as processed,
skipped or failed, but the scan does not resume, so messages after the signal
are not scanned in that run. -/
theorem scan_flood_wait_suspends_then_done (dbFail : ChatMessage → Bool) (cid : Int)
    (msgs : List ChatMessage) (w : Nat) (post : List HistEvent)
    (hok : ∀ m ∈ msgs, extractOkB m = true) :
    (runScan dbFail cid (msgs.map HistEvent.msg ++ HistEvent.flood w :: post)).termination
      = ScanTermination.done
    ∧ (runScan dbFail cid (msgs.map HistEvent.msg ++ HistEvent.flood w :: post)).sleeps
      = [w + 5]
    ∧ w + 5 ≥ w
    ∧ (runScan dbFail cid (msgs.map HistEvent.msg ++ HistEvent.flood w :: post)).counts.scanned
      = msgs.length
    ∧ (runScan dbFail cid (msgs.map HistEvent.msg ++ HistEvent.flood w :: post)).counts.processed
        + (runScan dbFail cid (msgs.map HistEvent.msg ++ HistEvent.flood w :: post)).counts.skipped
        + (runScan dbFail cid (msgs.map HistEvent.msg ++ HistEvent.flood w :: post)).counts.failed
      = msgs.length := by
  have h := scanLoop_append_msgs dbFail cid msgs (HistEvent.flood w :: post)
    ⟨0, 0, 0, 0⟩ [] [] hok
  unfold runScan
  rw [h]
  refine ⟨rfl, rfl, by omega, ?_, ?_⟩
  · show 0 + msgs.length = msgs.length
    omega
  · show 0 + msgs.countP (procP dbFail) + (0 + msgs.countP skipP)
        + (0 + msgs.countP (failP dbFail)) = msgs.length
    have := countP_proc_skip_fail dbFail msgs
    omega

theorem scan_flood_wait_suspends_then_done_witness :
    (runScan (fun _ => false) 99
        ([vMsg 1, vMsg 2].map HistEvent.msg
          ++ HistEvent.flood 10 :: [HistEvent.msg (vMsg 3)])).termination
      = ScanTermination.done
    ∧ (runScan (fun _ => false) 99
        ([vMsg 1, vMsg 2].map HistEvent.msg
          ++ HistEvent.flood 10 :: [HistEvent.msg (vMsg 3)])).sleeps = [10 + 5]
    ∧ 10 + 5 ≥ 10
    ∧ (runScan (fun _ => false) 99
        ([vMsg 1, vMsg 2].map HistEvent.msg
          ++ HistEvent.flood 10 :: [HistEvent.msg (vMsg 3)])).counts.scanned
      = [vMsg 1, vMsg 2].length
    ∧ (runScan (fun _ => false) 99
        ([vMsg 1, vMsg 2].map HistEvent.msg
          ++ HistEvent.flood 10 :: [HistEvent.msg (vMsg 3)])).counts.processed
        + (runScan (fun _ => false) 99
        ([vMsg 1, vMsg 2].map HistEvent.msg
          ++ HistEvent.flood 10 :: [HistEvent.msg (vMsg 3)])).counts.skipped
        + (runScan (fun _ => false) 99
        ([vMsg 1, vMsg 2].map HistEvent.msg
          ++ HistEvent.flood 10 :: [HistEvent.msg (vMsg 3)])).counts.failed
      = [vMsg 1, vMsg 2].length :=
  scan_flood_wait_suspends_then_done (fun _ => false) 99 [vMsg 1, vMsg 2] 10
    [HistEvent.msg (vMsg 3)] (by decide)

/-- C7: a failing store write is recovered locally: for any history of
messages and any set of failing writes, the scan still reaches the final
summary, the failed counter counts exactly the eligible messages whose write
failed, and every other message is still processed or skipped. -/
theorem scan_write_failure_is_local (dbFail : ChatMessage → Bool) (cid : Int)
    (msgs : List ChatMessage) (hok : ∀ m ∈ msgs, extractOkB m = true) :
    (runScan dbFail cid (msgs.map HistEvent.msg)).termination = ScanTermination.done
    ∧ (runScan dbFail cid (msgs.map HistEvent.msg)).counts.failed
      = msgs.countP (failP dbFail)
    ∧ (runScan dbFail cid (msgs.map HistEvent.msg)).counts.processed
      = msgs.countP (procP dbFail)
    ∧ (runScan dbFail cid (msgs.map HistEvent.msg)).counts.skipped
      = msgs.countP skipP
    ∧ (runScan dbFail cid (msgs.map HistEvent.msg)).counts.scanned = msgs.length := by
  have h := scanLoop_append_msgs dbFail cid msgs [] ⟨0, 0, 0, 0⟩ [] [] hok
  rw [List.append_nil] at h
  unfold runScan
  rw [h]
  refine ⟨rfl, ?_, ?_, ?_, ?_⟩
  · show 0 + msgs.countP (failP dbFail) = msgs.countP (failP dbFail)
    omega
  · show 0 + msgs.countP (procP dbFail) = msgs.countP (procP dbFail)
    omega
  · show 0 + msgs.countP skipP = msgs.countP skipP
    omega
  · show 0 + msgs.length = msgs.length
    omega

theorem scan_write_failure_is_local_witness :
    (runScan (fun m => m.id == 2) 99 ([videoMsg, docMsg, textMsg].map HistEvent.msg)).termination
      = ScanTermination.done
    ∧ (runScan (fun m => m.id == 2) 99
        ([videoMsg, docMsg, textMsg].map HistEvent.msg)).counts.failed
      = [videoMsg, docMsg, textMsg].countP (failP (fun m => m.id == 2))
    ∧ (runScan (fun m => m.id == 2) 99
        ([videoMsg, docMsg, textMsg].map HistEvent.msg)).counts.processed
      = [videoMsg, docMsg, textMsg].countP (procP (fun m => m.id == 2))
    ∧ (runScan (fun m => m.id == 2) 99
        ([videoMsg, docMsg, textMsg].map HistEvent.msg)).counts.skipped
      = [videoMsg, docMsg, textMsg].countP skipP
    ∧ (runScan (fun m => m.id == 2) 99
        ([videoMsg, docMsg, textMsg].map HistEvent.msg)).counts.scanned
      = [videoMsg, docMsg, textMsg].length :=
  scan_write_failure_is_local (fun m => m.id == 2) 99 [videoMsg, docMsg, textMsg]
    (by decide)

/-- C6: the claim is contradicted by the code.  For an eligible document whose
transport metadata has `file_name = None` and `mime_type = None` (attribute
present but null), `getattr(media, 'mime_type', '')` returns `None` and
`None.split('/')` raises `AttributeError`, so name synthesis is not total and
the scan aborts; with the attribute absent, synthesis does succeed with a
non-empty name. -/
theorem extract_name_synthesis_not_total :
    extractDetails ⟨"doc-id", none, some none, 5⟩
        ⟨10, none, some ⟨"doc-id", none, some none, 5⟩, none, false, none, none,
         some "document"⟩
      = Except.error PyError.attributeError
    ∧ eligibleMsg ⟨10, none, some ⟨"doc-id", none, some none, 5⟩, none, false, none,
        none, some "document"⟩ = true
    ∧ (runScan (fun _ => false) 99
        [HistEvent.msg ⟨10, none, some ⟨"doc-id", none, some none, 5⟩, none, false,
          none, none, some "document"⟩]).termination
      = ScanTermination.aborted PyError.attributeError
    ∧ extractDetails ⟨"doc-id", none, none, 5⟩
        ⟨10, none, some ⟨"doc-id", none, none, 5⟩, none, false, none, none,
         some "document"⟩
      = Except.ok ⟨"doc-id", "document_10.file", none, "document", 5⟩
    ∧ "document_10.file" ≠ "" :=
  ⟨rfl, rfl, rfl, rfl, by decide⟩

/-- C9: when channel resolution fails, `index_channel` issues no store write
at all and reports the failure text naming both the channel identity and the
underlying cause. -/
theorem index_resolution_failure_aborts_before_writes
    (channel_target cause : String) (history : List HistEvent)
    (dbFail : ChatMessage → Bool) :
    (index_channel (Except.error cause) channel_target history dbFail).allWrites = []
    ∧ (index_channel (Except.error cause) channel_target history dbFail).scan = none
    ∧ containsSub ((index_channel (Except.error cause) channel_target history
        dbFail).resolutionError.getD "") channel_target
    ∧ containsSub ((index_channel (Except.error cause) channel_target history
        dbFail).resolutionError.getD "") cause := by
  refine ⟨rfl, rfl, ?_, ?_⟩
  · refine ⟨"❌ Error: Could not access channel `",
      "`. Ensure the bot is an admin or the username/ID is correct.\nDetails: `"
        ++ cause ++ "`", ?_⟩
    show resolutionErrorText channel_target cause = _
    unfold resolutionErrorText
    simp only [String.append_assoc]
  · refine ⟨"❌ Error: Could not access channel `" ++ channel_target
      ++ "`. Ensure the bot is an admin or the username/ID is correct.\nDetails: `",
      "`", ?_⟩
    show resolutionErrorText channel_target cause = _
    unfold resolutionErrorText
    simp only [String.append_assoc]

/-! ## Link builder (`main.py`, `get_media_link`) -/

/-- C8: the link builder maps the private-prefixed numeric id
`-1001234567890` with message 42 to a link containing `c/1234567890/42`
(prefix stripped), and the public handle `@moviehub` to a link containing
`moviehub/42`, both when the transport resolves the handle to username
`moviehub` and on the fallback path when resolution fails. -/
theorem get_media_link_shapes :
    (∀ g, get_media_link g (ChanIdent.int (-1001234567890)) 42
      = Except.ok "https://t.me/c/1234567890/42")
    ∧ (∀ g e, g (ChanIdent.str "@moviehub") = Except.error e →
        get_media_link g (ChanIdent.str "@moviehub") 42
          = Except.ok "https://t.me/moviehub/42")
    ∧ (∀ g chat, g (ChanIdent.str "@moviehub") = Except.ok chat →
        chat.username = some "moviehub" →
        get_media_link g (ChanIdent.str "@moviehub") 42
          = Except.ok "https://t.me/moviehub/42")
    ∧ containsSub "https://t.me/c/1234567890/42" "c/1234567890/42"
    ∧ containsSub "https://t.me/moviehub/42" "moviehub/42" := by
  refine ⟨fun g => ?_, fun g e he => ?_, fun g chat hg hu => ?_,
    ⟨"https://t.me/", "", by decide⟩, ⟨"https://t.me/", "", by decide⟩⟩
  · simp only [get_media_link]
    rw [if_pos (by decide : pyStartsWith (toString (-1001234567890 : Int)) "-100" = true)]
    rfl
  · simp only [get_media_link]
    rw [if_pos (by decide : pyStartsWith "@moviehub" "@" = true), he]
    rfl
  · simp only [get_media_link]
    rw [if_pos (by decide : pyStartsWith "@moviehub" "@" = true), hg]
    show Except.ok ("https://t.me/" ++ pyFStr chat.username ++ "/" ++ toString 42)
      = Except.ok "https://t.me/moviehub/42"
    rw [hu]
    rfl

theorem get_media_link_shapes_witness :
    get_media_link (fun _ => Except.error "peer id invalid")
        (ChanIdent.str "@moviehub") 42 = Except.ok "https://t.me/moviehub/42"
    ∧ get_media_link (fun _ => Except.ok ⟨some "moviehub"⟩)
        (ChanIdent.str "@moviehub") 42 = Except.ok "https://t.me/moviehub/42"
    ∧ get_media_link (fun _ => Except.error "x")
        (ChanIdent.int (-1001234567890)) 42
      = Except.ok "https://t.me/c/1234567890/42" :=
  ⟨get_media_link_shapes.2.1 _ "peer id invalid" rfl,
   get_media_link_shapes.2.2.1 _ ⟨some "moviehub"⟩ rfl rfl,
   get_media_link_shapes.1 _⟩

/-! ## Group search handler (`main.py`, `group_filter_handler`) -/

/-- C10: an inbound group text whose stripped form is shorter than 3
characters or purely numeric is dropped before any store search and without
any reply — even though such a query can have non-empty normalized tokens
(e.g. "42"), so this filter is strictly stronger than the empty-query
short-circuit. -/
theorem group_short_or_numeric_query_ignored
    (storeSearch : String → Nat → List MediaRecord) (maxResults : Nat)
    (requestButtonConfigured : Bool) :
    (∀ text, (pyStrip text).length < 3 ∨ pyIsDigit (pyStrip text) = true →
      group_filter_handler storeSearch maxResults requestButtonConfigured text
        = ⟨false, false⟩)
    ∧ queryClean "42" ≠ []
    ∧ group_filter_handler storeSearch maxResults requestButtonConfigured "42"
      = ⟨false, false⟩ := by
  have hgate : ∀ text, (pyStrip text).length < 3 ∨ pyIsDigit (pyStrip text) = true →
      group_filter_handler storeSearch maxResults requestButtonConfigured text
        = ⟨false, false⟩ := by
    intro text h
    unfold group_filter_handler
    have : (decide ((pyStrip text).length < 3) || pyIsDigit (pyStrip text)
        || ((pyStrip text).length == 1 && !pyIsAlnum (pyStrip text))) = true := by
      rcases h with h | h
      · simp [h]
      · simp [h]
    rw [if_pos this]
  refine ⟨hgate, by decide, hgate "42" (Or.inl (by decide))⟩

theorem group_short_or_numeric_query_ignored_witness :
    group_filter_handler (fun _ _ => [mkMediaData 1 1 "f" none none "video" 0 0])
        5 true "hi" = ⟨false, false⟩
    ∧ group_filter_handler (fun _ _ => [mkMediaData 1 1 "f" none none "video" 0 0])
        5 true " 123456 " = ⟨false, false⟩ :=
  ⟨(group_short_or_numeric_query_ignored _ 5 true).1 "hi" (Or.inl (by decide)),
   (group_short_or_numeric_query_ignored _ 5 true).1 " 123456 " (Or.inr (by decide))⟩

end AutoFilter
